import Mathlib

/-!
Verification of the AppointAI command-interpretation and slot-resolution core
(`backend/app/services/chat_service.py` and `category_service.py`) against its
natural-language specification.

The embedding is shallow and executable:
* times of day are minutes since midnight (`datetime` arithmetic inside one
  day is exactly integer-minute arithmetic);
* calendar dates handled by the slot finder are day indices (`Nat`): the code
  only parses an ISO date, adds whole days with `timedelta`, compares for
  equality, and prints it back, so a day index models `date` faithfully;
* dates seen by the dispatcher's matching and query branches are the
  zero-padded ISO strings the code itself compares (`str(e.date)`);
* the duration parser models CPython `float()`/`int()` string conversion:
  whitespace stripping, signs, the inf/infinity/nan keywords, PEP-515
  underscores, exponents, and overflow to an infinity past the double
  range (on which `int()` raises); a finite float value is carried exactly
  as `n * 10^k` -- rounding to the nearest double is abstracted, digits are
  ASCII -- and `int(...)` truncates toward zero;
* every fallible collaborator call (database, LLM) is a field of an
  environment record returning `Except String`, and the dispatcher's own
  result is `Except String (ChatResponse × List Action)`: a `.error` means a
  Python exception crossed `process_message`'s boundary, and the `Action`
  trace records, in order, the slot-finder invocations and the successful
  persistence mutations the call performed.
-/

namespace AppointAI

/-! ## Python-semantics helpers -/

/-- Truthiness of an optional string: Python `if s:` is false for `None` and
for the empty string. -/
def pyTruthy : Option String → Bool
  | none => false
  | some s => s ≠ ""

/-- Python `a or b` on two optional strings: `b` when `a` is falsy. -/
def pyOr (a b : Option String) : Option String :=
  if pyTruthy a then a else b

/-- Python `str(x)` for an optional string: `str(None)` is the text None. -/
def pyStr : Option String → String
  | none => "None"
  | some s => s

/-- Python `s.lower()`: every character lowercased (ASCII model of
`str.lower`). -/
def strLower (s : String) : String :=
  ⟨s.data.map Char.toLower⟩

/-- Computable lexicographic strict comparison of character lists, mirroring
the core `List.lt` relation (and Python's code-point string `<`). -/
def charListLt : List Char → List Char → Bool
  | _, [] => false
  | [], _ :: _ => true
  | a :: as, b :: bs =>
      decide (a < b) || (decide (¬ a < b) && decide (¬ b < a) && charListLt as bs)

/-- Python `a < b` on strings: code-point lexicographic, computably. -/
def strLt (a b : String) : Bool :=
  charListLt a.data b.data

/-- Python `a <= b` on strings: the negation of the reversed strict
comparison (the order is total). -/
def strLe (a b : String) : Bool :=
  !(strLt b a)

/-- Python `c in s` for a character: membership in the string's characters. -/
def pyContains (s : String) (c : Char) : Bool :=
  s.data.contains c

/-- Python `s.replace(c, "")`: every occurrence of the character removed. -/
def removeAll (s : String) (c : Char) : String :=
  ⟨s.data.filter (fun a => a ≠ c)⟩

/-- Python `needle in hay` for strings: contiguous-substring containment
(the empty needle is contained in everything). -/
def strIn (needle hay : String) : Bool :=
  go needle.data hay.data
where
  go (n : List Char) : List Char → Bool
    | [] => n.isEmpty
    | c :: rest => n.isPrefixOf (c :: rest) || go n rest

/-- The numeric value of a block of decimal digits. -/
def digitsToNat (l : List Char) : Nat :=
  l.foldl (fun acc c => acc * 10 + (c.toNat - 48)) 0

/-- CPython's `Py_UNICODE_ISSPACE`: the characters `int()` and `float()`
strip from both ends of their string argument. -/
def pyIsSpace (c : Char) : Bool :=
  (9 ≤ c.toNat && c.toNat ≤ 13) || (28 ≤ c.toNat && c.toNat ≤ 32) ||
    c.toNat == 0x85 || c.toNat == 0xA0 || c.toNat == 0x1680 ||
    (0x2000 ≤ c.toNat && c.toNat ≤ 0x200A) ||
    c.toNat == 0x2028 || c.toNat == 0x2029 || c.toNat == 0x202F ||
    c.toNat == 0x205F || c.toNat == 0x3000

/-- Surrounding whitespace removed, as `int()` and `float()` do before
parsing. -/
def stripPy (l : List Char) : List Char :=
  ((l.dropWhile pyIsSpace).reverse.dropWhile pyIsSpace).reverse

/-- No two adjacent underscores anywhere in the list. -/
def noDoubleUnd : List Char → Bool
  | '_' :: '_' :: _ => false
  | _ :: rest => noDoubleUnd rest
  | [] => true

/-- A PEP-515 digit group as `int()` and `float()` read one: decimal digits
with single underscores standing only between digits. -/
def groupOk (l : List Char) : Bool :=
  !l.isEmpty && l.all (fun c => c.isDigit || c == '_') &&
    (match l.head? with | some c => c.isDigit | none => false) &&
    (match l.getLast? with | some c => c.isDigit | none => false) &&
    noDoubleUnd l

/-- The underscores of a digit group removed. -/
def stripUnd (l : List Char) : List Char :=
  l.filter (fun c => c ≠ '_')

/-- The result of Python `float(s)`: a finite value, carried exactly as
`n * 10^k` (rounding to the nearest double is abstracted; the overflow to an
infinity is not, see `ovfAbs`), one of the two infinities, or nan. -/
inductive PyFloat where
  | finite (n : Int) (k : Int)
  | posInf
  | negInf
  | nan
deriving DecidableEq, Repr

/-- Split a float literal at its first exponent marker `e`/`E`, if any. -/
def splitExp (l : List Char) : List Char × Option (List Char) :=
  match l.span (fun c => !(c == 'e' || c == 'E')) with
  | (m, []) => (m, none)
  | (m, _ :: rest) => (m, some rest)

/-- The mantissa of a float literal: `group [. [group]]` or `. group`, at
least one digit overall; the value is `n * 10^k`. -/
def parseMantissa (m : List Char) : Option (Nat × Int) :=
  match m.span (fun c => !(c == '.')) with
  | (ip, []) =>
      if groupOk ip then some (digitsToNat (stripUnd ip), 0) else none
  | (ip, _ :: fp) =>
      if fp.contains '.' then none
      else if (ip.isEmpty || groupOk ip) && (fp.isEmpty || groupOk fp) &&
          !(ip.isEmpty && fp.isEmpty) then
        some (digitsToNat (stripUnd ip ++ stripUnd fp), -(((stripUnd fp).length : Int)))
      else none

/-- The exponent of a float literal: an optionally signed digit group. -/
def parseExp : List Char → Option Int
  | '+' :: g => if groupOk g then some ((digitsToNat (stripUnd g) : Int)) else none
  | '-' :: g => if groupOk g then some (-(digitsToNat (stripUnd g) : Int)) else none
  | g => if groupOk g then some ((digitsToNat (stripUnd g) : Int)) else none

/-- An unsigned float body: the keywords `inf`, `infinity` and `nan`
(case-insensitive), or a decimal literal with an optional exponent. -/
def parseFloatBody (l : List Char) : Option PyFloat :=
  if l.map Char.toLower == "inf".data || l.map Char.toLower == "infinity".data then
    some PyFloat.posInf
  else if l.map Char.toLower == "nan".data then some PyFloat.nan
  else
    match splitExp l with
    | (m, none) => (parseMantissa m).map (fun p => PyFloat.finite (p.1 : Int) p.2)
    | (m, some ex) =>
        match parseMantissa m, parseExp ex with
        | some p, some kk => some (PyFloat.finite (p.1 : Int) (p.2 + kk))
        | _, _ => none

/-- The magnitude at which a decimal literal rounds to an infinity: the
midpoint between the largest finite double and 2^1024. -/
def OVF : Int :=
  ((2 ^ 1024 - 2 ^ 970 : Nat) : Int)

/-- Whether the exact value `n * 10^k` lies at or beyond the double overflow
threshold. -/
def ovfAbs (n k : Int) : Bool :=
  if 0 ≤ k then decide (OVF ≤ (n.natAbs : Int) * (10 : Int) ^ k.toNat)
  else decide (OVF * (10 : Int) ^ (-k).toNat ≤ (n.natAbs : Int))

/-- Python `float(s)`: strip surrounding whitespace, read an optional sign,
parse the body, and overflow to the signed infinity past the double
range. -/
def pyFloat (s : String) : Option PyFloat :=
  match stripPy s.data with
  | [] => none
  | '-' :: body =>
      (parseFloatBody body).map (fun v =>
        match v with
        | PyFloat.finite n k => if ovfAbs n k then PyFloat.negInf else PyFloat.finite (-n) k
        | PyFloat.posInf => PyFloat.negInf
        | x => x)
  | '+' :: body =>
      (parseFloatBody body).map (fun v =>
        match v with
        | PyFloat.finite n k => if ovfAbs n k then PyFloat.posInf else PyFloat.finite n k
        | x => x)
  | body =>
      (parseFloatBody body).map (fun v =>
        match v with
        | PyFloat.finite n k => if ovfAbs n k then PyFloat.posInf else PyFloat.finite n k
        | x => x)

/-- Python `int(s)` on a string: strip surrounding whitespace, read an
optional sign, then a PEP-515 digit group (arbitrary precision, never
overflows). -/
def pyInt (s : String) : Option Int :=
  match stripPy s.data with
  | [] => none
  | '-' :: body => if groupOk body then some (-(digitsToNat (stripUnd body) : Int)) else none
  | '+' :: body => if groupOk body then some ((digitsToNat (stripUnd body) : Int)) else none
  | body => if groupOk body then some ((digitsToNat (stripUnd body) : Int)) else none

/-- Python `int(x * 60)` for the finite float value `n * 10^k`: the exact
product truncated toward zero. -/
def truncTimes60 (n k : Int) : Int :=
  if 0 ≤ k then n * 60 * (10 : Int) ^ k.toNat
  else (n * 60).tdiv ((10 : Int) ^ (-k).toNat)

/-- Whether `(n * 10^k) * 60` leaves the double range: the product becomes
an infinity and `int()` then raises `OverflowError`. -/
def mulOvf (n k : Int) : Bool :=
  if 0 ≤ k then decide (OVF ≤ (n.natAbs : Int) * 60 * (10 : Int) ^ k.toNat)
  else decide (OVF * (10 : Int) ^ (-k).toNat ≤ (n.natAbs : Int) * 60)

/-- Two decimal digits, zero-padded. -/
def pad2 (n : Nat) : String :=
  if n < 10 then "0" ++ toString n else toString n

/-- `strftime("%H:%M")` of a minute-of-day count. -/
def fmtTime (m : Nat) : String :=
  pad2 (m / 60) ++ ":" ++ pad2 (m % 60)

/-- `strftime("%H:%M")` of a signed minute offset from midnight: `datetime`
rolls into the neighbouring day, so the printed clock time is the offset
reduced modulo one day. -/
def fmtTimeI (m : Int) : String :=
  fmtTime ((m % 1440).toNat)

/-! ## The Slot Finder (`ChatService.find_available_slot`) -/

/-- The overlap test of `find_available_slot`'s busy check, written in the
code as `current_slot_start < b_end and slot_end > b_start`. -/
def overlapB (aStart aEnd bStart bEnd : Int) : Bool :=
  decide (aStart < bEnd) && decide (aEnd > bStart)

/-- A user's event as the slot finder reads it: a day index, a start time in
minutes, and an optional end time (`end_time` is checked for truthiness
before use). -/
structure SlotEvent where
  date : Nat
  start_time : Int
  end_time : Option Int
deriving DecidableEq, Repr

/-- The found slot: the day it falls on and the formatted times the code
returns in its dict. -/
structure FoundSlot where
  date : Nat
  startTime : String
  endTime : String
deriving DecidableEq, Repr

/-- The busy list built for one day: the day's events sorted by start time,
each paired with its end (an event with no end gets `start + 60` minutes). -/
def busyOn (events : List SlotEvent) (checkDate : Nat) : List (Int × Int) :=
  let dayEvents := events.filter (fun e => e.date == checkDate)
  let sorted := dayEvents.insertionSort (fun a b => a.start_time ≤ b.start_time)
  sorted.map (fun e =>
    (e.start_time, match e.end_time with
      | some t => t
      | none => e.start_time + 60))

/-- One day's `while` loop of `find_available_slot`: starting at `cur`, as
long as the candidate fits before `dayEnd`, return the first candidate that
overlaps no busy interval; on a conflict jump to the end of the first
conflicting interval. The loop terminates because the overlap condition
`cur < b.2` makes every jump strictly increase `cur`. -/
def scanDay (busy : List (Int × Int)) (dayEnd dur cur : Int) : Option Int :=
  if h : cur + dur ≤ dayEnd then
    match hc : busy.find? (fun b => overlapB cur (cur + dur) b.1 b.2) with
    | none => some cur
    | some b => scanDay busy dayEnd dur b.2
  else none
termination_by (dayEnd + 1 - dur - cur).toNat
decreasing_by
  have hp := List.find?_some hc
  simp only [overlapB, Bool.and_eq_true, decide_eq_true_eq] at hp
  simp only [Int.toNat_lt_toNat (by omega : (0 : Int) < dayEnd + 1 - dur - cur)]
  omega

/-- The day loop of `find_available_slot`: for each day in order, scan the
working window 09:00–17:00 and return the first slot found. -/
def findFirstSlot (events : List SlotEvent) (dur : Int) : List Nat → Option FoundSlot
  | [] => none
  | d :: ds =>
      match scanDay (busyOn events d) (17 * 60) dur (9 * 60) with
      | some cur => some ⟨d, fmtTimeI cur, fmtTimeI (cur + dur)⟩
      | none => findFirstSlot events dur ds

/-- The duration parser at the top of `find_available_slot`: with an `h`
anywhere in the string, `int(float(rest) * 60)` minutes, where a parse
failure, an infinite or nan float, or a product leaving the double range
(each of which raises, swallowed by the bare `except`) falls back to 60;
else with an `m`, `int(rest)` minutes, falling back to 60 on a parse
failure; else (including a falsy string) 60. -/
def parseDuration (durationStr : Option String) : Int :=
  match durationStr with
  | none => 60
  | some s =>
      if s = "" then 60
      else if pyContains s 'h' then
        match pyFloat (removeAll s 'h') with
        | some (PyFloat.finite n k) => if mulOvf n k then 60 else truncTimes60 n k
        | some _ => 60
        | none => 60
      else if pyContains s 'm' then
        match pyInt (removeAll s 'm') with
        | some k => k
        | none => 60
      else 60

/-- `ChatService.find_available_slot`: parse the duration, then scan
`range_days` consecutive days starting at `start_date` for the first free
slot in working hours. -/
def find_available_slot (events : List SlotEvent) (startDate : Nat)
    (durationStr : Option String) (rangeDays : Nat) : Option FoundSlot :=
  let dur := parseDuration durationStr
  findFirstSlot events dur ((List.range rangeDays).map (fun i => startDate + i))

/-! ## The Category service (`CategoryService.create_category`) -/

/-- A category row as the dispatcher and the category service read it. -/
structure Category where
  id : Nat
  name : String
deriving DecidableEq, Repr

/-- `CategoryService.create_category` against a snapshot of the categories
table: the duplicate check is the SQL filter `Category.name == name`, an
exact string equality (the datastore is PostgreSQL, whose text equality is
case-sensitive); on a hit it raises `BadRequestException`, otherwise it
inserts and returns the new row. -/
def create_category (table : List Category) (newId : Nat) (name : String) :
    Except String Category :=
  match table.find? (fun c => c.name == name) with
  | some _ => .error "Category with this name already exists"
  | none => .ok { id := newId, name := name }

/-! ## The Dispatcher (`ChatService.process_message`)

The LLM extraction result, the persistence collaborators and the current
date are bundled in an environment record; each fallible collaborator call
is an `Except String` value (an `.error` is a raised Python exception).
Record fields collapse a JSON key that is present with value `null` into an
absent key, except where the code distinguishes them. -/

/-- An event row as the dispatcher reads it: `str(e.date)` is the
zero-padded ISO date string the code compares, `start_time` a minute of
day. -/
structure Event where
  id : Nat
  title : String
  date : String
  start_time : Nat
deriving DecidableEq, Repr

/-- The `search_criteria` object of the extraction result. -/
structure SearchCriteria where
  title_keyword : Option String := none
  date : Option String := none
deriving DecidableEq, Repr

/-- The `entities` object of the extraction result. `auto_schedule` is the
truthiness of the extracted value; `is_recurring` likewise. -/
structure Entities where
  title : Option String := none
  date : Option String := none
  startTime : Option String := none
  endTime : Option String := none
  category_name : Option String := none
  name : Option String := none
  color : Option String := none
  description : Option String := none
  duration : Option String := none
  is_recurring : Bool := false
  recurrence_rule : Option String := none
  auto_schedule : Bool := false
  time_range_start : Option String := none
  time_range_end : Option String := none
  date_range_start : Option String := none
  date_range_end : Option String := none
  priority : Option String := none
  due_date : Option String := none
  estimated_duration : Option String := none
deriving DecidableEq, Repr

/-- The optional `updates` object of the extraction result. -/
structure Updates where
  title : Option String := none
  date : Option String := none
  startTime : Option String := none
  endTime : Option String := none
  duration : Option String := none
  is_recurring : Option Bool := none
  recurrence_rule : Option String := none
deriving DecidableEq, Repr

/-- The parsed JSON document returned by the extraction collaborator;
`updates := none` models an absent or empty (falsy) `updates` object. -/
structure Parsed where
  intent : Option String := none
  entities : Entities := {}
  search_criteria : SearchCriteria := {}
  updates : Option Updates := none
  response_text : Option String := none
deriving DecidableEq, Repr

/-- The dict returned by `find_available_slot` as the dispatcher consumes
it. -/
structure SlotOut where
  date : String
  startTime : String
  endTime : String
deriving DecidableEq, Repr

/-- A validated `EventCreateSchema` (title, date and both times are
required strings: constructing it from `None` raises). -/
structure EventCreate where
  title : String
  date : String
  startTime : String
  endTime : String
  category_id : Option Nat := none
  duration : Option String := none
  is_recurring : Bool := false
  recurrence_rule : Option String := none
deriving DecidableEq, Repr

/-- A validated `TodoCreateSchema` (only the title is required). -/
structure TodoCreate where
  title : String
  description : Option String := none
  priority : String := "medium"
  due_date : Option String := none
  estimated_duration : Option String := none
  category_id : Option Nat := none
deriving DecidableEq, Repr

/-- An `EventUpdateSchema`: every field optional, so construction never
fails. -/
structure UpdateData where
  title : Option String := none
  date : Option String := none
  startTime : Option String := none
  endTime : Option String := none
  category_id : Option Nat := none
  duration : Option String := none
  is_recurring : Option Bool := none
  recurrence_rule : Option String := none
deriving DecidableEq, Repr

/-- The `ChatResponse` schema: `data` carries the only payload the code
builds, the created category's id and name. -/
structure ChatResponse where
  response : String
  action_taken : Option String := none
  data : Option (Nat × String) := none
deriving DecidableEq, Repr

/-- The observable calls `process_message` performs, in order: slot-finder
invocations and successfully completed persistence mutations. -/
inductive Action where
  | findSlotCall (searchStart : String) (duration : String)
  | createCategory (name : String)
  | createEvent (data : EventCreate)
  | createTodo (data : TodoCreate)
  | deleteEvent (id : Nat)
  | updateEvent (id : Nat) (data : UpdateData)
deriving DecidableEq, Repr

/-- The collaborators `process_message` consults. `llm` is the awaited
extraction call together with `json.loads` (an `.error` covers transport
failures and malformed JSON); `today` is `date.today().isoformat()`. -/
structure Env where
  hasApiKey : Bool
  listCategories : Except String (List Category)
  llm : Except String Parsed
  today : String
  findSlot : String → String → Except String (Option SlotOut)
  createCategory : String → String → String → Except String Category
  createEvent : EventCreate → Except String Unit
  createTodo : TodoCreate → Except String Unit
  listEvents : Except String (List Event)
  deleteEvent : Nat → Except String Unit
  updateEvent : Nat → UpdateData → Except String Unit

/-- The title filter of the update/delete branch: events whose lowered
title contains the lowered keyword (an empty keyword matches nothing). -/
def titleCandidates (events : List Event) (sc : SearchCriteria) : List Event :=
  events.filter (fun e =>
    decide (strLower (sc.title_keyword.getD "") ≠ "") &&
      strIn (strLower (sc.title_keyword.getD "")) (strLower e.title))

/-- The date refinement of the update/delete branch: when a date is given
and title candidates remain, keep those on exactly that date. -/
def eventCandidates (events : List Event) (sc : SearchCriteria) : List Event :=
  if pyTruthy sc.date && !(titleCandidates events sc).isEmpty then
    (titleCandidates events sc).filter (fun c => c.date == sc.date.getD "")
  else titleCandidates events sc

/-- The match selection of the update/delete branch: one candidate is the
match, of several the first is picked, none is a failure. -/
def matchedEvent (events : List Event) (sc : SearchCriteria) : Option Event :=
  if (eventCandidates events sc).length == 1 then (eventCandidates events sc).head?
  else if (eventCandidates events sc).length > 1 then (eventCandidates events sc).head?
  else none

/-- The category-id resolution run for non-`create_category` intents: a
case-insensitive name match against the snapshot, unresolved names are
dropped. -/
def resolveCategoryId (categories : List Category) (cat_name : Option String)
    (intent : Option String) : Option Nat :=
  if pyTruthy cat_name && !(intent == some "create_category") then
    (categories.find? (fun c => strLower c.name == strLower (cat_name.getD ""))).map (fun c => c.id)
  else none

/-- The date-range resolution of the `query_calendar` branch:
`date_range_start or date`, defaulted to today when falsy; `date_range_end`,
defaulted to the resolved start when falsy. -/
def resolvedQueryRange (ent : Entities) (today : String) : String × String :=
  let s := match pyOr ent.date_range_start ent.date with
    | some v => if v = "" then today else v
    | none => today
  let e := match ent.date_range_end with
    | some v => if v = "" then s else v
    | none => s
  (s, e)

/-- The sort order of the `query_calendar` summary: the Python tuple key
`(date, start_time)` compared lexicographically (dates by the computable
code-point string comparison). -/
def queryLe (a b : Event) : Prop :=
  strLt a.date b.date = true ∨ (a.date = b.date ∧ a.start_time ≤ b.start_time)

instance : DecidableRel queryLe := fun a b => by
  unfold queryLe; infer_instance

/-- The summary rendering of the `query_calendar` branch: a fixed message
when no event is in range, otherwise a header line followed by one line per
event in `(date, start_time)` order. -/
def querySummary (s e : String) (relevant : List Event) : String :=
  if relevant.isEmpty then
    "You have no events scheduled between " ++ s ++ " and " ++ e ++ "."
  else
    String.intercalate "\n"
      (("Here is your schedule from " ++ s ++ " to " ++ e ++ ":") ::
        (relevant.insertionSort queryLe).map
          (fun ev => "- " ++ ev.date ++ " " ++ fmtTime ev.start_time ++ " - " ++ ev.title))

/-- The `updates` fallback of the update branch: the explicit `updates`
object when it is truthy, otherwise the `entities` object reused. -/
def entToUpdates (ent : Entities) : Updates :=
  { title := ent.title, date := ent.date, startTime := ent.startTime,
    endTime := ent.endTime, duration := ent.duration,
    is_recurring := some ent.is_recurring, recurrence_rule := ent.recurrence_rule }

/-- The `EventUpdateSchema` built in the update branch. -/
def mkUpdateData (ups : Updates) (category_id : Option Nat) : UpdateData :=
  { title := ups.title, date := ups.date, startTime := ups.startTime,
    endTime := ups.endTime, category_id := category_id,
    duration := ups.duration, is_recurring := ups.is_recurring,
    recurrence_rule := ups.recurrence_rule }

/-- The search start of the auto-schedule path: `time_range_start or date`,
defaulted to today when falsy. -/
def searchStartOf (ent : Entities) (today : String) : String :=
  match pyOr ent.time_range_start ent.date with
  | some s => if s = "" then today else s
  | none => today

/-- The local filter of the `query_calendar` branch: events whose ISO date
string lies between the bounds under string comparison. -/
def queryFiltered (events : List Event) (s e : String) : List Event :=
  events.filter (fun ev => strLe s ev.date && strLe ev.date e)

/-- The `EventCreateSchema` built from validated required fields and the
optional ones. -/
def mkEventCreate (ent : Entities) (category_id : Option Nat)
    (t d st et : String) : EventCreate :=
  { title := t, date := d, startTime := st, endTime := et,
    category_id := category_id, duration := ent.duration,
    is_recurring := ent.is_recurring, recurrence_rule := ent.recurrence_rule }

/-- The tail of the `create_event` branch: construct `EventCreateSchema`
(raising when a required field is missing), persist, confirm. -/
def finishCreateEvent (env : Env) (tr : List Action) (ent : Entities)
    (category_id : Option Nat) (response_text : String) :
    Except String ChatResponse × List Action :=
  match ent.title, ent.date, ent.startTime, ent.endTime with
  | some t, some d, some st, some et =>
      (match env.createEvent (mkEventCreate ent category_id t d st et) with
       | .error e => (.error e, tr)
       | .ok _ => (.ok { response := response_text, action_taken := some "create_event" },
                   tr ++ [Action.createEvent (mkEventCreate ent category_id t d st et)]))
  | _, _, _, _ => (.error "EventCreateSchema validation error", tr)

/-- The body of `process_message`'s `try` block, from the awaited extraction
call to the per-intent dispatch. The returned trace survives an `.error`:
actions already performed are not undone by the exception handler. -/
def tryBody (env : Env) (categories : List Category) :
    Except String ChatResponse × List Action :=
  match env.llm with
  | .error e => (.error e, [])
  | .ok parsed =>
      let intent := parsed.intent
      let ent := parsed.entities
      let response_text := parsed.response_text.getD "Done."
      let cat_name := pyOr ent.category_name ent.name
      -- computed in the code after the create_category early return, but pure
      let category_id := resolveCategoryId categories cat_name intent
      if intent == some "create_category" then
        match categories.find? (fun c => strLower c.name == strLower (pyStr cat_name)) with
        | some _ =>
            (.ok { response := "Category '" ++ pyStr cat_name ++ "' already exists." }, [])
        | none =>
            match cat_name with
            | none => (.error "CategoryCreateSchema validation error", [])
            | some nm =>
                match env.createCategory nm (ent.color.getD "#3B82F6") (ent.description.getD "") with
                | .error e => (.error e, [])
                | .ok newCat =>
                    (.ok { response := response_text, action_taken := some "create_category",
                           data := some (newCat.id, newCat.name) },
                     [Action.createCategory nm])
      else if intent == some "create_event" then
        if ent.auto_schedule then
          let search_start := searchStartOf ent env.today
          let durationS := ent.duration.getD "1h"
          let tr := [Action.findSlotCall search_start durationS]
          match env.findSlot search_start durationS with
          | .error e => (.error e, tr)
          | .ok none =>
              (.ok { response := "I couldn't find any free time starting from " ++ search_start ++ " for " ++ durationS ++ "." }, tr)
          | .ok (some slot) =>
              let ent2 := { ent with
                date := some slot.date,
                startTime := some slot.startTime,
                endTime := some slot.endTime }
              let response_text2 := response_text ++ " I scheduled it for " ++ slot.date ++ " from " ++ slot.startTime ++ " to " ++ slot.endTime ++ "."
              finishCreateEvent env tr ent2 category_id response_text2
        else finishCreateEvent env [] ent category_id response_text
      else if intent == some "create_todo" then
        match ent.title with
        | none => (.error "TodoCreateSchema validation error", [])
        | some t =>
            let data : TodoCreate :=
              { title := t, description := ent.description,
                priority := ent.priority.getD "medium", due_date := ent.due_date,
                estimated_duration := ent.estimated_duration, category_id := category_id }
            (match env.createTodo data with
             | .error e => (.error e, [])
             | .ok _ => (.ok { response := response_text, action_taken := some "create_todo" },
                         [Action.createTodo data]))
      else if intent == some "update_event" || intent == some "delete_event" then
        match env.listEvents with
        | .error e => (.error e, [])
        | .ok user_events =>
            let sc := parsed.search_criteria
            let title_query := strLower (sc.title_keyword.getD "")
            match matchedEvent user_events sc with
            | none =>
                (.ok { response := "I couldn't find an event matching '" ++ title_query ++ "'" ++ (if pyTruthy sc.date then " on " ++ sc.date.getD "" else "") ++ ". Please be more specific." }, [])
            | some ev =>
                if intent == some "delete_event" then
                  match env.deleteEvent ev.id with
                  | .error e => (.error e, [])
                  | .ok _ => (.ok { response := response_text, action_taken := some "delete_event" },
                              [Action.deleteEvent ev.id])
                else
                  let ups := match parsed.updates with
                    | some u => u
                    | none => entToUpdates ent
                  let data := mkUpdateData ups category_id
                  match env.updateEvent ev.id data with
                  | .error e => (.error e, [])
                  | .ok _ => (.ok { response := response_text, action_taken := some "update_event" },
                              [Action.updateEvent ev.id data])
      else if intent == some "query_calendar" then
        let range := resolvedQueryRange ent env.today
        match env.listEvents with
        | .error e => (.error e, [])
        | .ok user_events =>
            let relevant := queryFiltered user_events range.1 range.2
            (.ok { response := querySummary range.1 range.2 relevant }, [])
      else
        (.ok { response := response_text }, [])

/-- `ChatService.process_message`: the missing-key guard, then the category
snapshot fetch (outside the `try` block: a failure there propagates), then
the `try` body with its outermost exception handler. -/
def process_message (env : Env) : Except String (ChatResponse × List Action) :=
  if !env.hasApiKey then
    .ok ({ response := "I'm ready to help, but the GROQ_API_KEY is missing from the backend environment variables. Please add it to use the AI features.",
           action_taken := some "error" }, [])
  else
    match env.listCategories with
    | .error e => .error e
    | .ok categories =>
        match tryBody env categories with
        | (.ok resp, tr) => (.ok (resp, tr))
        | (.error e, tr) =>
            .ok ({ response := "Sorry, I ran into an issue filtering your request: " ++ e,
                   action_taken := some "error" }, tr)

/-! ## Definitions following the specification's wording

Used only to compare the spec's claims against the code's behaviour. -/

/-- The overlap condition exactly as the specification words it:
`startA < endB AND endB > startA`. The second conjunct repeats the first
instead of comparing `endA` with `startB`. -/
def overlapClaimed (aStart aEnd bStart bEnd : Int) : Bool :=
  decide (aStart < bEnd) && decide (bEnd > aStart)

/-- The `query_calendar` range resolution as the specification words it: the
explicit range when both bounds are given, a single given date duplicated as
both bounds, today duplicated when neither is given. -/
def claimedQueryRange (ent : Entities) (today : String) : String × String :=
  if pyTruthy ent.date_range_start && pyTruthy ent.date_range_end then
    (ent.date_range_start.getD "", ent.date_range_end.getD "")
  else if pyTruthy ent.date then
    (ent.date.getD "", ent.date.getD "")
  else (today, today)

/-! ## Concrete environments for witnesses and counterexamples -/

/-- A benign environment: key present, empty tables, every collaborator
succeeds, the extraction call fails (overridden per scenario). -/
def baseEnv : Env :=
  { hasApiKey := true, listCategories := .ok [], llm := .error "no extraction",
    today := "2024-03-15", findSlot := fun _ _ => .ok none,
    createCategory := fun n _ _ => .ok { id := 7, name := n },
    createEvent := fun _ => .ok (), createTodo := fun _ => .ok (),
    listEvents := .ok [], deleteEvent := fun _ => .ok (),
    updateEvent := fun _ _ => .ok () }

/-- An environment whose category snapshot fetch raises. -/
def c1BadEnv : Env :=
  { baseEnv with listCategories := .error "database connection lost" }

/-- An extraction result asking to create an event with no start or end time
but a date-range hint, and no auto_schedule flag. -/
def c3Parsed : Parsed :=
  { intent := some "create_event",
    entities := { title := some "Meeting", time_range_start := some "2024-03-01" },
    response_text := some "Booked." }

def c3Env : Env :=
  { baseEnv with llm := .ok c3Parsed }

/-- An extraction result with the explicit auto_schedule flag set. -/
def c3AutoParsed : Parsed :=
  { intent := some "create_event",
    entities := { title := some "Meeting", auto_schedule := true,
                  time_range_start := some "2024-03-01" },
    response_text := some "Booked." }

def c3AutoEnv : Env :=
  { baseEnv with
    llm := .ok c3AutoParsed,
    findSlot := fun s _ => .ok (some { date := s, startTime := "09:00", endTime := "10:00" }) }

/-- A delete request for "gym" against a calendar holding only a Yoga
event. -/
def c5Parsed : Parsed :=
  { intent := some "delete_event",
    search_criteria := { title_keyword := some "gym" } }

def c5Env : Env :=
  { baseEnv with
    llm := .ok c5Parsed,
    listEvents := .ok [{ id := 1, title := "Yoga", date := "2024-03-16", start_time := 540 }] }

/-- A create_category request for a name with no case-insensitive match in
the snapshot. -/
def c7Parsed : Parsed :=
  { intent := some "create_category",
    entities := { name := some "Fitness" },
    response_text := some "Created." }

def c7Env : Env :=
  { baseEnv with
    listCategories := .ok [{ id := 3, name := "Work" }],
    llm := .ok c7Parsed }

/-- A query with only the end bound of the range given. -/
def c9Parsed : Parsed :=
  { intent := some "query_calendar",
    entities := { date_range_end := some "2024-05-05" } }

def c9Env : Env :=
  { baseEnv with
    llm := .ok c9Parsed,
    listEvents := .ok [{ id := 1, title := "Dentist", date := "2024-04-01", start_time := 600 }] }

/-! ## Helper lemmas -/

/-- The one-step unfolding of `scanDay`, with a plain `if` and `match`. -/
theorem scanDay_step (busy : List (Int × Int)) (dayEnd dur cur : Int) :
    scanDay busy dayEnd dur cur =
      if cur + dur ≤ dayEnd then
        match busy.find? (fun b => overlapB cur (cur + dur) b.1 b.2) with
        | none => some cur
        | some b => scanDay busy dayEnd dur b.2
      else none := by
  rw [scanDay.eq_def]
  split
  · generalize List.find? (fun b => overlapB cur (cur + dur) b.1 b.2) busy = r
    cases r <;> rfl
  · rfl

/-- The day loop finds nothing exactly when every day's scan finds
nothing. -/
theorem findFirstSlot_eq_none_iff (events : List SlotEvent) (dur : Int) (l : List Nat) :
    findFirstSlot events dur l = none ↔
      ∀ d ∈ l, scanDay (busyOn events d) (17 * 60) dur (9 * 60) = none := by
  induction l with
  | nil => simp [findFirstSlot]
  | cons d ds ih =>
      rw [findFirstSlot]
      cases h : scanDay (busyOn events d) (17 * 60) dur (9 * 60) with
      | some cur =>
          constructor
          · intro hx
            exact Option.noConfusion hx
          · intro hall
            have hd := hall d (List.mem_cons_self d ds)
            rw [h] at hd
            exact Option.noConfusion hd
      | none =>
          constructor
          · intro hx x hx2
            rcases List.mem_cons.mp hx2 with hx3 | hmem
            · rw [hx3]
              exact h
            · exact (ih.mp hx) x hmem
          · intro hall
            exact ih.mpr fun x hx2 => hall x (List.mem_cons_of_mem d hx2)

/-- Filtering away a character that does not occur leaves a character list
unchanged. -/
theorem filter_ne_of_not_contains (l : List Char) (c : Char)
    (h : l.contains c = false) : l.filter (fun a => a ≠ c) = l := by
  induction l with
  | nil => rfl
  | cons x xs ih =>
      simp only [List.contains_cons, Bool.or_eq_false_iff] at h
      simp only [List.filter_cons]
      rw [if_pos, ih h.2]
      simp only [ne_eq, decide_eq_true_eq]
      intro he
      rw [he] at h
      simp at h

/-! ## C2 — the overlap predicate -/

/-- C2 counterexample: for A = [08:00, 09:00) and B = [10:00, 11:00) the
claimed condition `startA < endB AND endB > startA` holds, yet the busy
check of the Slot Finder does not treat them as overlapping: the claimed
formula is not the predicate the code computes. -/
theorem c2_overlap_counterexample :
    overlapClaimed 480 540 600 660 = true ∧ overlapB 480 540 600 660 = false := by
  decide

/-- C2 (amended): the single overlap predicate of the Slot Finder busy check
holds exactly when `startA < endB AND endA > startB`; under it touching
endpoints never overlap, and the busy check fires exactly when some busy
interval overlaps the candidate in this sense. -/
theorem c2_overlap_predicate :
    (∀ aS aE bS bE : Int, overlapB aS aE bS bE = true ↔ (aS < bE ∧ aE > bS))
    ∧ (∀ s m e : Int, overlapB s m m e = false)
    ∧ (∀ (busy : List (Int × Int)) (cur dur : Int),
        (busy.find? (fun b => overlapB cur (cur + dur) b.1 b.2)).isSome ↔
          ∃ b ∈ busy, overlapB cur (cur + dur) b.1 b.2 = true) := by
  refine ⟨?_, ?_, ?_⟩
  · intro aS aE bS bE
    simp [overlapB]
  · intro s m e
    simp [overlapB]
  · intro busy cur dur
    exact List.find?_isSome

/-! ## C4 — conflict skip -/

/-- C4: with exactly one busy interval [09:00, 10:00) on the earliest search
date, a 60-minute request returns that date with 10:00–11:00: the candidate
start jumps to the end of the conflicting interval, and the slot touching
the busy interval's endpoint is accepted as free. -/
theorem c4_conflict_skip (d : Nat) :
    find_available_slot [{ date := d, start_time := 540, end_time := some 600 }] d (some "1h") 7 =
      some { date := d, startTime := "10:00", endTime := "11:00" } := by
  have hdur : parseDuration (some "1h") = 60 := by
    set_option exponentiation.threshold 1100 in
    set_option maxRecDepth 8192 in decide
  have hb : busyOn [{ date := d, start_time := 540, end_time := some 600 }] (d + 0) =
      [((540 : Int), (600 : Int))] := by
    simp [busyOn, List.insertionSort, List.orderedInsert]
  have hscan : scanDay [((540 : Int), (600 : Int))] (17 * 60) 60 (9 * 60) = some 600 := by
    rw [scanDay_step]
    norm_num [List.find?, overlapB]
    rw [scanDay_step]
    norm_num [List.find?, overlapB]
  unfold find_available_slot
  rw [hdur, show List.range 7 = [0, 1, 2, 3, 4, 5, 6] from rfl]
  simp only [List.map_cons, List.map_nil]
  rw [findFirstSlot, hb, hscan]
  rfl

/-! ## C10 — termination of the slot scan -/

/-- C10: the scan terminates: a detected conflict always moves the candidate
start strictly forward (to the conflicting interval's end), a day's loop
yields nothing once the candidate no longer fits before 17:00, and the whole
search returns none exactly when every day of the window is exhausted (the
well-founded recursion of `scanDay` is justified by the same strict
progress). -/
theorem c10_slot_finder_terminates :
    (∀ (busy : List (Int × Int)) (dur cur : Int) (b : Int × Int),
        busy.find? (fun p => overlapB cur (cur + dur) p.1 p.2) = some b → cur < b.2)
    ∧ (∀ (busy : List (Int × Int)) (dayEnd dur cur : Int),
        dayEnd < cur + dur → scanDay busy dayEnd dur cur = none)
    ∧ (∀ (events : List SlotEvent) (startDate : Nat) (durationStr : Option String)
        (rangeDays : Nat),
        find_available_slot events startDate durationStr rangeDays = none ↔
          ∀ i < rangeDays,
            scanDay (busyOn events (startDate + i)) (17 * 60) (parseDuration durationStr)
              (9 * 60) = none) := by
  refine ⟨?_, ?_, ?_⟩
  · intro busy dur cur b hb
    have hp := List.find?_some hb
    simp only [overlapB, Bool.and_eq_true, decide_eq_true_eq] at hp
    exact hp.1
  · intro busy dayEnd dur cur h
    rw [scanDay_step, if_neg (by omega)]
  · intro events startDate durationStr rangeDays
    unfold find_available_slot
    rw [findFirstSlot_eq_none_iff]
    constructor
    · intro h i hi
      exact h (startDate + i) (List.mem_map.mpr ⟨i, List.mem_range.mpr hi, rfl⟩)
    · intro h d hd
      obtain ⟨i, hi, rfl⟩ := List.mem_map.mp hd
      exact h i (List.mem_range.mp hi)

/-! ## C8 -- duration parsing -/

/-- Checks of the duration parser model against CPython behaviour:
whitespace stripping (`float("2 ")`, `int("2 ")`, `int(" 10 ")`), exponent
syntax (`float("1e2")`), PEP-515 underscores (`int("1_5")`, the rejected
`1__0`), fractions with `int()` truncation toward zero
(`int(float("1.33") * 60) = 79`), overflow past the double range and the
infinity/nan keywords (each makes `int()` raise, so the code falls back to
60), signs, and strings neither branch parses. -/
theorem parse_duration_python_examples :
    parseDuration (some "2 h") = 120
    ∧ parseDuration (some "1e2h") = 6000
    ∧ parseDuration (some "2 m") = 2
    ∧ parseDuration (some "1_5m") = 15
    ∧ parseDuration (some "2.5h") = 150
    ∧ parseDuration (some "1.33h") = 79
    ∧ parseDuration (some "1e400h") = 60
    ∧ parseDuration (some "infh") = 60
    ∧ parseDuration (some "nanh") = 60
    ∧ parseDuration (some "-1h") = -60
    ∧ parseDuration (some "banana") = 60
    ∧ parseDuration (some "1h30m") = 60
    ∧ pyFloat "1__0" = none
    ∧ pyInt " 10 " = some 10 := by
  set_option exponentiation.threshold 1100 in
  set_option maxRecDepth 8192 in decide

/-- C8: with an `h` present, a string whose remainder Python `float()`
parses to the finite value `n * 10^k` yields `int(n * 10^k * 60)` minutes
(exact truncation toward zero) whenever the product stays inside the double
range; with an `m`, a string whose remainder `int()` parses yields that
many minutes; and whenever the selected branch's conversion fails -- parse
error, infinity or nan, or a product leaving the double range -- or no unit
is present at all, the result is exactly 60; the parser is total, so a bad
duration string never fails the command. Finite float values are modelled
exactly (rounding to the nearest double is abstracted); digits are ASCII. -/
theorem c8_parse_duration :
    (∀ (s : String) (n k : Int), pyFloat s = some (PyFloat.finite n k) →
        pyContains s 'h' = false → mulOvf n k = false →
        parseDuration (some (s ++ "h")) = truncTimes60 n k)
    ∧ (∀ (s : String) (k : Int), pyInt s = some k → pyContains s 'h' = false →
        pyContains s 'm' = false → parseDuration (some (s ++ "m")) = k)
    ∧ (∀ s : String,
        (pyContains s 'h' = true →
          ∀ n k, pyFloat (removeAll s 'h') = some (PyFloat.finite n k) → mulOvf n k = true) →
        (pyContains s 'h' = false → pyContains s 'm' = true →
          pyInt (removeAll s 'm') = none) →
        parseDuration (some s) = 60)
    ∧ parseDuration none = 60 := by
  refine ⟨?_, ?_, ?_, rfl⟩
  · intro s n k hq hh hm
    have hdata : (s ++ "h").data = s.data ++ ['h'] := by
      rw [String.data_append]
    have hne : ¬ (s ++ "h") = "" := by
      intro heq
      have := congrArg String.data heq
      rw [hdata] at this
      simp at this
    have hcont : pyContains (s ++ "h") 'h' = true := by
      simp [pyContains, hdata]
    have hrm : removeAll (s ++ "h") 'h' = s := by
      apply String.ext
      show ((s ++ "h").data).filter (fun a => a ≠ 'h') = s.data
      rw [hdata, List.filter_append]
      simp only [List.filter_cons, List.filter_nil]
      rw [filter_ne_of_not_contains s.data 'h' hh]
      simp
    rw [parseDuration, if_neg hne, if_pos hcont, hrm, hq]
    simp [hm]
  · intro s k hk hh hm
    have hdata : (s ++ "m").data = s.data ++ ['m'] := by
      rw [String.data_append]
    have hne : ¬ (s ++ "m") = "" := by
      intro heq
      have := congrArg String.data heq
      rw [hdata] at this
      simp at this
    have hnoh : pyContains (s ++ "m") 'h' = false := by
      simp [pyContains, hdata]
      simp [pyContains] at hh
      exact hh
    have hcont : pyContains (s ++ "m") 'm' = true := by
      simp [pyContains, hdata]
    have hrm : removeAll (s ++ "m") 'm' = s := by
      apply String.ext
      show ((s ++ "m").data).filter (fun a => a ≠ 'm') = s.data
      rw [hdata, List.filter_append]
      simp only [List.filter_cons, List.filter_nil]
      rw [filter_ne_of_not_contains s.data 'm' hm]
      simp
    rw [parseDuration, if_neg hne, if_neg (by rw [hnoh]; exact Bool.false_ne_true),
      if_pos hcont, hrm, hk]
  · intro s hhu hmu
    by_cases hs : s = ""
    · simp [parseDuration, hs]
    · rw [parseDuration, if_neg hs]
      by_cases hh : pyContains s 'h' = true
      · rw [if_pos hh]
        cases hpf : pyFloat (removeAll s 'h') with
        | none => rfl
        | some v =>
            cases v with
            | finite n k =>
                simp [hhu hh n k hpf]
            | posInf => rfl
            | negInf => rfl
            | nan => rfl
      · have hh2 : pyContains s 'h' = false := by
          cases hcase : pyContains s 'h'
          · rfl
          · exact absurd hcase hh
        rw [if_neg hh]
        by_cases hm : pyContains s 'm' = true
        · rw [if_pos hm, hmu hh2 hm]
        · rw [if_neg hm]

/-! ## C6 -- Event Matcher tie-break -/

/-- C6: with more than one surviving candidate, the Event Matcher picks the
first candidate in the stable input order: the candidate list is an
order-preserving sublist of the input, and the match is its head. The
matcher is a pure function of the snapshot and the criteria, so repeated
calls on the same inputs return the same match. -/
theorem c6_event_matcher_first (events : List Event) (sc : SearchCriteria)
    (h : 1 < (eventCandidates events sc).length) :
    (eventCandidates events sc).Sublist events
    ∧ matchedEvent events sc = (eventCandidates events sc).head? := by
  constructor
  · unfold eventCandidates
    split
    · exact (List.filter_sublist _).trans (List.filter_sublist _)
    · exact List.filter_sublist _
  · have h1 : ¬ ((eventCandidates events sc).length == 1) = true := by
      simp only [beq_iff_eq]
      omega
    unfold matchedEvent
    rw [if_neg h1, if_pos h]

/-- C6 witness: two events titled Gym A and Gym B; the keyword gym keeps
both and the matcher returns the first. -/
theorem c6_witness :
    (eventCandidates
        [{ id := 1, title := "Gym A", date := "2024-03-16", start_time := 540 },
         { id := 2, title := "Gym B", date := "2024-03-17", start_time := 600 }]
        { title_keyword := some "gym" }).Sublist
      [{ id := 1, title := "Gym A", date := "2024-03-16", start_time := 540 },
       { id := 2, title := "Gym B", date := "2024-03-17", start_time := 600 }]
    ∧ matchedEvent
        [{ id := 1, title := "Gym A", date := "2024-03-16", start_time := 540 },
         { id := 2, title := "Gym B", date := "2024-03-17", start_time := 600 }]
        { title_keyword := some "gym" } =
      (eventCandidates
        [{ id := 1, title := "Gym A", date := "2024-03-16", start_time := 540 },
         { id := 2, title := "Gym B", date := "2024-03-17", start_time := 600 }]
        { title_keyword := some "gym" }).head? :=
  c6_event_matcher_first _ _ (by decide)

/-! ## C5 -- zero-match clarification -/

/-- C5: when the update/delete search criteria match zero events (the empty
keyword among them: it matches nothing, as the second conjunct states for
every input), the dispatcher returns the clarification message naming the
lowered keyword and, when given, the date, with no action taken, and the
call performs no persistence mutation (the action trace is empty). -/
theorem c5_no_match_clarifies (env : Env) (cats : List Category) (parsed : Parsed)
    (events : List Event)
    (hk : env.hasApiKey = true)
    (hc : env.listCategories = .ok cats)
    (hl : env.llm = .ok parsed)
    (hi : parsed.intent = some "update_event" ∨ parsed.intent = some "delete_event")
    (he : env.listEvents = .ok events)
    (hz : eventCandidates events parsed.search_criteria = []) :
    process_message env =
      .ok ({ response := "I couldn't find an event matching '" ++
               strLower (parsed.search_criteria.title_keyword.getD "") ++ "'" ++
               (if pyTruthy parsed.search_criteria.date then
                  " on " ++ parsed.search_criteria.date.getD "" else "") ++
               ". Please be more specific.",
             action_taken := none, data := none }, [])
    ∧ (∀ (evs : List Event) (sc : SearchCriteria), sc.title_keyword = some "" →
        eventCandidates evs sc = []) := by
  constructor
  · have hm : matchedEvent events parsed.search_criteria = none := by
      unfold matchedEvent
      rw [hz]
      rfl
    rcases hi with hi | hi <;>
      simp [process_message, hk, hc, tryBody, hl, hi, he, hm]
  · intro evs sc hsc
    have ht : titleCandidates evs sc = [] := by
      unfold titleCandidates
      rw [hsc]
      simp [strLower]
    unfold eventCandidates
    rw [ht]
    simp

/-- C5 witness: deleting gym with only a Yoga event present yields the
clarification and an empty action trace. -/
theorem c5_witness :
    process_message c5Env =
      .ok ({ response := "I couldn't find an event matching 'gym'. Please be more specific.",
             action_taken := none, data := none }, []) :=
  (c5_no_match_clarifies c5Env [] c5Parsed
      [{ id := 1, title := "Yoga", date := "2024-03-16", start_time := 540 }]
      rfl rfl rfl (Or.inr rfl) rfl (by decide)).1

/-! ## C1 -- totality of the dispatcher boundary -/

/-- C1 (amended): once the category snapshot fetch (which the code performs
before entering its try block) succeeds, process_message always returns a
ChatResponse, and any failure raised inside the try body -- the extraction
call and every persistence call -- is converted into a response with
action_taken = "error" and a message naming the failure. -/
theorem c1_total_after_snapshot (env : Env) (cats : List Category)
    (hc : env.listCategories = .ok cats) :
    (∃ r, process_message env = .ok r)
    ∧ (env.hasApiKey = true → ∀ e tr, tryBody env cats = (.error e, tr) →
        process_message env =
          .ok ({ response := "Sorry, I ran into an issue filtering your request: " ++ e,
                 action_taken := some "error", data := none }, tr)) := by
  constructor
  · cases hk : env.hasApiKey with
    | false =>
        refine ⟨({ response := "I'm ready to help, but the GROQ_API_KEY is missing from the backend environment variables. Please add it to use the AI features.",
                   action_taken := some "error", data := none }, []), ?_⟩
        simp [process_message, hk]
    | true =>
        rcases htb : tryBody env cats with ⟨res, tr⟩
        cases res with
        | ok resp =>
            refine ⟨(resp, tr), ?_⟩
            simp [process_message, hk, hc, htb]
        | error e =>
            refine ⟨({ response := "Sorry, I ran into an issue filtering your request: " ++ e,
                       action_taken := some "error", data := none }, tr), ?_⟩
            simp [process_message, hk, hc, htb]
  · intro hk e tr htb
    simp [process_message, hk, hc, htb]

/-- C1 witness: the benign environment yields a response. -/
theorem c1_witness : ∃ r, process_message baseEnv = .ok r :=
  (c1_total_after_snapshot baseEnv [] rfl).1

/-- C1 counterexample: the category snapshot fetch runs before the try
block, so a database failure there crosses the boundary as an exception
instead of becoming an action_taken = "error" response. -/
theorem c1_counterexample :
    process_message c1BadEnv = .error "database connection lost" := rfl

/-! ## C3 -- when the Slot Finder runs -/

/-- The create_event tail either raises (validation or persistence) leaving
the trace unchanged, or appends exactly the one successful createEvent
action. -/
theorem finishCreateEvent_cases (env : Env) (tr : List Action) (ent : Entities)
    (cid : Option Nat) (rt : String) :
    (∃ e, finishCreateEvent env tr ent cid rt = (.error e, tr))
    ∨ (∃ data resp, finishCreateEvent env tr ent cid rt =
        (.ok resp, tr ++ [Action.createEvent data])) := by
  unfold finishCreateEvent
  split
  · rename_i t d st et ht hd hst het
    cases hce : env.createEvent (mkEventCreate ent cid t d st et) with
    | error e => exact Or.inl ⟨e, rfl⟩
    | ok u => exact Or.inr ⟨mkEventCreate ent cid t d st et, _, rfl⟩
  · exact Or.inl ⟨_, rfl⟩

/-- The create_event tail only ever extends the trace it is given. -/
theorem finishCreateEvent_trace_exists (env : Env) (tr : List Action) (ent : Entities)
    (cid : Option Nat) (rt : String) :
    ∃ res rest, finishCreateEvent env tr ent cid rt = (res, tr ++ rest) := by
  rcases finishCreateEvent_cases env tr ent cid rt with ⟨e, h⟩ | ⟨d2, resp, h⟩
  · exact ⟨_, [], by simpa using h⟩
  · exact ⟨_, [Action.createEvent d2], h⟩

/-- The action trace of a returned response is the trace of the try body:
the exception handler converts the error but keeps the actions already
performed. -/
theorem process_message_trace_rev (env : Env) (cats : List Category)
    (hk : env.hasApiKey = true) (hc : env.listCategories = .ok cats) :
    ∀ r tr, process_message env = .ok (r, tr) → ∃ res, tryBody env cats = (res, tr) := by
  intro r tr hpm
  rcases htb : tryBody env cats with ⟨res, tr0⟩
  cases res with
  | ok resp =>
      have h2 : process_message env = .ok (resp, tr0) := by
        simp [process_message, hk, hc, htb]
      rw [h2] at hpm
      injection hpm with h3
      injection h3 with h4 h5
      subst h5
      exact ⟨.ok resp, rfl⟩
  | error e =>
      have h2 : process_message env =
          .ok ({ response := "Sorry, I ran into an issue filtering your request: " ++ e,
                 action_taken := some "error", data := none }, tr0) := by
        simp [process_message, hk, hc, htb]
      rw [h2] at hpm
      injection hpm with h3
      injection h3 with h4 h5
      subst h5
      exact ⟨.error e, rfl⟩

/-- C3 (amended): in the create_event branch the Slot Finder runs exactly
when the explicit auto_schedule flag from the extraction step is truthy;
when it runs, its invocation is the first recorded call, before any
persistence action, and when the flag is falsy no slot-finder call occurs --
in particular the absence of both times alongside a date-range hint does not
trigger it. -/
theorem c3_slot_finder_iff_flag (env : Env) (cats : List Category) (parsed : Parsed)
    (hk : env.hasApiKey = true) (hc : env.listCategories = .ok cats)
    (hl : env.llm = .ok parsed) (hi : parsed.intent = some "create_event") :
    (parsed.entities.auto_schedule = true →
      ∃ r rest, process_message env =
        .ok (r, Action.findSlotCall (searchStartOf parsed.entities env.today)
              (parsed.entities.duration.getD "1h") :: rest))
    ∧ (parsed.entities.auto_schedule = false →
        ∀ r tr, process_message env = .ok (r, tr) →
          ∀ s dn, Action.findSlotCall s dn ∉ tr) := by
  constructor
  · intro ha
    have hmain : ∃ res rest, tryBody env cats =
        (res, Action.findSlotCall (searchStartOf parsed.entities env.today)
          (parsed.entities.duration.getD "1h") :: rest) := by
      rcases hf : env.findSlot (searchStartOf parsed.entities env.today)
          (parsed.entities.duration.getD "1h") with e | os
      · exact ⟨.error e, [], by simp [tryBody, hl, hi, ha, hf]⟩
      · cases os with
        | none =>
            refine ⟨.ok { response := "I couldn't find any free time starting from " ++
                searchStartOf parsed.entities env.today ++ " for " ++
                parsed.entities.duration.getD "1h" ++ "." }, [], ?_⟩
            simp [tryBody, hl, hi, ha, hf]
        | some slot =>
            obtain ⟨res, rest, hfin⟩ := finishCreateEvent_trace_exists env
              [Action.findSlotCall (searchStartOf parsed.entities env.today)
                (parsed.entities.duration.getD "1h")]
              { parsed.entities with
                date := some slot.date,
                startTime := some slot.startTime,
                endTime := some slot.endTime }
              (resolveCategoryId cats (pyOr parsed.entities.category_name parsed.entities.name)
                parsed.intent)
              ((parsed.response_text.getD "Done.") ++ " I scheduled it for " ++ slot.date ++
                " from " ++ slot.startTime ++ " to " ++ slot.endTime ++ ".")
            refine ⟨res, rest, ?_⟩
            rw [show tryBody env cats = finishCreateEvent env
              [Action.findSlotCall (searchStartOf parsed.entities env.today)
                (parsed.entities.duration.getD "1h")]
              { parsed.entities with
                date := some slot.date,
                startTime := some slot.startTime,
                endTime := some slot.endTime }
              (resolveCategoryId cats (pyOr parsed.entities.category_name parsed.entities.name)
                parsed.intent)
              ((parsed.response_text.getD "Done.") ++ " I scheduled it for " ++ slot.date ++
                " from " ++ slot.startTime ++ " to " ++ slot.endTime ++ ".") from by
                simp [tryBody, hl, hi, ha, hf]]
            exact hfin
    obtain ⟨res, rest, htb⟩ := hmain
    cases res with
    | ok resp =>
        exact ⟨resp, rest, by simp [process_message, hk, hc, htb]⟩
    | error e =>
        refine ⟨{ response := "Sorry, I ran into an issue filtering your request: " ++ e,
                  action_taken := some "error", data := none }, rest, ?_⟩
        simp [process_message, hk, hc, htb]
  · intro ha r tr hpm s dn
    obtain ⟨res, htb⟩ := process_message_trace_rev env cats hk hc r tr hpm
    have hbranch : tryBody env cats = finishCreateEvent env [] parsed.entities
        (resolveCategoryId cats (pyOr parsed.entities.category_name parsed.entities.name)
          parsed.intent)
        (parsed.response_text.getD "Done.") := by
      simp [tryBody, hl, hi, ha]
    rcases finishCreateEvent_cases env [] parsed.entities
        (resolveCategoryId cats (pyOr parsed.entities.category_name parsed.entities.name)
          parsed.intent)
        (parsed.response_text.getD "Done.") with ⟨e, hfin⟩ | ⟨data, resp, hfin⟩
    · rw [hbranch, hfin] at htb
      injection htb with h1 h2
      rw [← h2]
      simp
    · rw [hbranch, hfin] at htb
      injection htb with h1 h2
      rw [← h2]
      simp

/-- C3 witness: with the flag set the call's trace starts with the
slot-finder invocation over the requested window. -/
theorem c3_witness :
    ∃ r rest, process_message c3AutoEnv =
      .ok (r, Action.findSlotCall "2024-03-01" "1h" :: rest) :=
  (c3_slot_finder_iff_flag c3AutoEnv [] c3AutoParsed rfl rfl rfl rfl).1 rfl

/-- C3 counterexample: both times absent and a date-range hint present, but
auto_schedule not set: the code never consults the Slot Finder (the trace is
empty) and instead fails schema validation, returning an error response. -/
theorem c3_no_flag_counterexample :
    (c3Parsed.entities.startTime = none ∧ c3Parsed.entities.endTime = none ∧
     c3Parsed.entities.time_range_start = some "2024-03-01" ∧
     c3Parsed.entities.auto_schedule = false)
    ∧ process_message c3Env =
        .ok ({ response := "Sorry, I ran into an issue filtering your request: EventCreateSchema validation error",
               action_taken := some "error", data := none }, []) :=
  ⟨⟨rfl, rfl, rfl, rfl⟩, rfl⟩

/-! ## C7 -- category creation and the AlreadyExists guard -/

/-- C7 counterexample: a category named Work exists and work matches it
case-insensitively, yet `create_category` does not fail: its duplicate check
is the exact SQL equality `Category.name == name`, so the lowercase
duplicate is inserted. -/
theorem c7_category_counterexample :
    strLower "work" = strLower "Work" ∧
    create_category [{ id := 1, name := "Work" }] 2 "work" =
      .ok { id := 2, name := "work" } := by
  constructor
  · rfl
  · rfl

/-- C7 (amended): `CategoryService.create_category` fails with the
AlreadyExists condition exactly when a category with the exactly equal name
exists, and otherwise inserts and returns the new row; the case-insensitive
duplicate guard lives in the dispatcher's create_category branch, which
answers "already exists" without consulting the service when a
case-insensitive match is in the snapshot, and otherwise delegates creation
to it. -/
theorem c7_create_category :
    (∀ (table : List Category) (newId : Nat) (nm : String),
        ((∃ c ∈ table, c.name = nm) ↔
          create_category table newId nm =
            .error "Category with this name already exists")
        ∧ ((∀ c ∈ table, c.name ≠ nm) →
            create_category table newId nm = .ok { id := newId, name := nm }))
    ∧ (∀ (env : Env) (cats : List Category) (parsed : Parsed) (nm : String) (cat : Category),
        env.hasApiKey = true →
        env.listCategories = .ok cats →
        env.llm = .ok parsed →
        parsed.intent = some "create_category" →
        pyOr parsed.entities.category_name parsed.entities.name = some nm →
        ((∃ c ∈ cats, strLower c.name = strLower nm) →
          process_message env =
            .ok ({ response := "Category '" ++ nm ++ "' already exists.",
                   action_taken := none, data := none }, []))
        ∧ ((∀ c ∈ cats, strLower c.name ≠ strLower nm) →
            env.createCategory nm (parsed.entities.color.getD "#3B82F6")
              (parsed.entities.description.getD "") = .ok cat →
            process_message env =
              .ok ({ response := parsed.response_text.getD "Done.",
                     action_taken := some "create_category",
                     data := some (cat.id, cat.name) }, [Action.createCategory nm]))) := by
  constructor
  · intro table newId nm
    constructor
    · constructor
      · rintro ⟨c, hcm, hcn⟩
        rcases hfind : table.find? (fun c => c.name == nm) with _ | c2
        · exact absurd (by simp [hcn]) (List.find?_eq_none.mp hfind c hcm)
        · unfold create_category
          rw [hfind]
      · intro herr
        rcases hfind : table.find? (fun c => c.name == nm) with _ | c2
        · unfold create_category at herr
          rw [hfind] at herr
          cases herr
        · have hp := List.find?_some hfind
          have hm := List.mem_of_find?_eq_some hfind
          simp only [beq_iff_eq] at hp
          exact ⟨c2, hm, hp⟩
    · intro hnone
      have hfind : table.find? (fun c => c.name == nm) = none :=
        List.find?_eq_none.mpr (fun c hcm => by simp [hnone c hcm])
      unfold create_category
      rw [hfind]
  · intro env cats parsed nm cat hk hc hl hi hnm
    constructor
    · rintro ⟨c, hcm, hcn⟩
      rcases hfind : cats.find? (fun c => strLower c.name == strLower nm) with _ | c0
      · exact absurd (by simp [hcn]) (List.find?_eq_none.mp hfind c hcm)
      · simp [process_message, hk, hc, tryBody, hl, hi, hnm, pyStr, hfind]
    · intro hnone hcc
      have hfind : cats.find? (fun c => strLower c.name == strLower nm) = none :=
        List.find?_eq_none.mpr (fun c hcm => by simp [hnone c hcm])
      simp [process_message, hk, hc, tryBody, hl, hi, hnm, pyStr, hfind, hcc]

/-- C7 witness: creating Fitness against a snapshot holding only Work takes
the delegation path and records the creation. -/
theorem c7_witness :
    process_message c7Env =
      .ok ({ response := "Created.", action_taken := some "create_category",
             data := some (7, "Fitness") }, [Action.createCategory "Fitness"]) :=
  ((c7_create_category.2 c7Env [{ id := 3, name := "Work" }] c7Parsed "Fitness"
      { id := 7, name := "Fitness" } rfl rfl rfl rfl rfl).2 (by decide) rfl)

/-! ## C9 -- query_calendar -/

/-- The computable character-list comparison agrees with the lexicographic
order on character lists. -/
theorem charListLt_iff : ∀ (as bs : List Char), charListLt as bs = true ↔ List.Lex (· < ·) as bs := by
  intro as
  induction as with
  | nil =>
      intro bs
      cases bs with
      | nil =>
          simp only [charListLt]
          constructor
          · intro h
            exact Bool.noConfusion h
          · intro h
            cases h
      | cons b bs =>
          simp only [charListLt]
          constructor
          · intro _
            exact List.Lex.nil
          · intro _
            trivial
  | cons a as ih =>
      intro bs
      cases bs with
      | nil =>
          simp only [charListLt]
          constructor
          · intro h
            exact Bool.noConfusion h
          · intro h
            cases h
      | cons b bs =>
          simp only [charListLt, Bool.or_eq_true, Bool.and_eq_true, decide_eq_true_eq]
          constructor
          · rintro (h | ⟨⟨h1, h2⟩, h3⟩)
            · exact List.Lex.rel h
            · have hab : a = b := le_antisymm (not_lt.mp h2) (not_lt.mp h1)
              subst hab
              exact List.Lex.cons ((ih bs).mp h3)
          · intro h
            cases h with
            | cons h =>
                exact Or.inr ⟨⟨lt_irrefl a, lt_irrefl a⟩, (ih bs).mpr h⟩
            | rel h => exact Or.inl h

/-- `strLt` agrees with the order on strings. -/
theorem strLt_iff (a b : String) : strLt a b = true ↔ a < b := by
  rw [String.lt_iff_toList_lt]
  exact charListLt_iff a.data b.data

/-- `strLe` agrees with the order on strings. -/
theorem strLe_iff (a b : String) : strLe a b = true ↔ a ≤ b := by
  constructor
  · intro h
    show ¬ b < a
    intro hlt
    rw [← strLt_iff] at hlt
    unfold strLe at h
    rw [hlt] at h
    exact Bool.noConfusion h
  · intro h
    have h2 : ¬ b < a := h
    unfold strLe
    cases hlt : strLt b a
    · rfl
    · exact absurd ((strLt_iff b a).mp hlt) h2

/-- C9 counterexample: with only `date_range_end` given, the code resolves
the range to (today, the given end), not to the claim's trichotomy (which
would duplicate today): the claimed range resolution differs from the
code's on this input. -/
theorem c9_range_counterexample :
    resolvedQueryRange { date_range_end := some "2024-05-05" } "2024-03-15" =
      ("2024-03-15", "2024-05-05")
    ∧ claimedQueryRange { date_range_end := some "2024-05-05" } "2024-03-15" =
      ("2024-03-15", "2024-03-15")
    ∧ resolvedQueryRange { date_range_end := some "2024-05-05" } "2024-03-15" ≠
      claimedQueryRange { date_range_end := some "2024-05-05" } "2024-03-15" := by
  refine ⟨rfl, rfl, ?_⟩
  decide

/-- C9 (amended): the resolved range takes `date_range_start`, else the
single date, else today as the start, and `date_range_end`, else the start,
as the end; the response lists exactly the user's events whose ISO date
string lies between the bounds (string comparison agreeing with the order),
rendered one line per event sorted by the `(date, start_time)` key, or the
fixed no-events message when the filtered set is empty; no action is taken
and no mutation performed. -/
theorem c9_query_calendar (env : Env) (cats : List Category) (parsed : Parsed)
    (events : List Event) (s e : String)
    (hk : env.hasApiKey = true) (hc : env.listCategories = .ok cats)
    (hl : env.llm = .ok parsed) (hi : parsed.intent = some "query_calendar")
    (he : env.listEvents = .ok events)
    (hs : s = (resolvedQueryRange parsed.entities env.today).1)
    (he2 : e = (resolvedQueryRange parsed.entities env.today).2) :
    process_message env =
      .ok ({ response := querySummary s e (queryFiltered events s e),
             action_taken := none, data := none }, [])
    ∧ (∀ ev, ev ∈ queryFiltered events s e ↔ (ev ∈ events ∧ s ≤ ev.date ∧ ev.date ≤ e))
    ∧ (∀ a b : Event, queryLe a b ↔
        (a.date < b.date ∨ (a.date = b.date ∧ a.start_time ≤ b.start_time)))
    ∧ ((queryFiltered events s e).insertionSort queryLe).Perm (queryFiltered events s e)
    ∧ List.Sorted queryLe ((queryFiltered events s e).insertionSort queryLe)
    ∧ (queryFiltered events s e = [] →
        querySummary s e (queryFiltered events s e) =
          "You have no events scheduled between " ++ s ++ " and " ++ e ++ ".")
    ∧ (queryFiltered events s e ≠ [] →
        querySummary s e (queryFiltered events s e) =
          String.intercalate "\n"
            (("Here is your schedule from " ++ s ++ " to " ++ e ++ ":") ::
              ((queryFiltered events s e).insertionSort queryLe).map
                (fun ev => "- " ++ ev.date ++ " " ++ fmtTime ev.start_time ++ " - " ++ ev.title))) := by
  subst hs
  subst he2
  haveI htot : IsTotal Event queryLe := ⟨by
    intro a b
    rcases lt_trichotomy a.date b.date with h | h | h
    · exact Or.inl (Or.inl ((strLt_iff _ _).mpr h))
    · rcases Nat.le_total a.start_time b.start_time with h2 | h2
      · exact Or.inl (Or.inr ⟨h, h2⟩)
      · exact Or.inr (Or.inr ⟨h.symm, h2⟩)
    · exact Or.inr (Or.inl ((strLt_iff _ _).mpr h))⟩
  haveI htrans : IsTrans Event queryLe := ⟨by
    intro a b c hab hbc
    rcases hab with h | ⟨hd, ht⟩ <;> rcases hbc with h2 | ⟨hd2, ht2⟩
    · exact Or.inl ((strLt_iff _ _).mpr (((strLt_iff _ _).mp h).trans ((strLt_iff _ _).mp h2)))
    · exact Or.inl (hd2 ▸ h)
    · exact Or.inl (hd ▸ h2)
    · exact Or.inr ⟨hd.trans hd2, ht.trans ht2⟩⟩
  refine ⟨?_, ?_, ?_, List.perm_insertionSort _ _, List.sorted_insertionSort _ _, ?_, ?_⟩
  · simp [process_message, hk, hc, tryBody, hl, hi, he]
  · intro ev
    simp [queryFiltered, List.mem_filter, strLe_iff, and_assoc]
  · intro a b
    exact or_congr_left (strLt_iff a.date b.date)
  · intro hempty
    simp [querySummary, hempty]
  · intro hne
    unfold querySummary
    rw [if_neg (by simpa [List.isEmpty_iff] using hne)]

/-- C9 witness: a query with only the end bound set lists the event lying
between today and that end. -/
theorem c9_witness :
    process_message c9Env =
      .ok ({ response := "Here is your schedule from 2024-03-15 to 2024-05-05:\n- 2024-04-01 10:00 - Dentist",
             action_taken := none, data := none }, []) :=
  (c9_query_calendar c9Env [] c9Parsed
      [{ id := 1, title := "Dentist", date := "2024-04-01", start_time := 600 }]
      "2024-03-15" "2024-05-05" rfl rfl rfl rfl rfl rfl rfl).1

end AppointAI
